import Mathlib

/-!
Verification development for the `lawcat` matrix container (`src/mat.cpp`).

The C++ code implements a dense rectangular matrix `mat<T>` with
`fill`, bounds-checked `set`, capability-gated `print`, and elementwise
`+`, `+=`, `-`, `-=` guarded by `check_matrix_dimensions`.

Shallow embedding choices:
* `mat T` carries the two dimension counters and the cell contents as a
  function `Nat → Nat → T`; only indices `i < n_rows`, `j < n_cols` are
  addressable in the C++ object, so every statement below restricts to
  that range.
* C++ exceptions become `Except MatError` results for the non-mutating
  operations (`set` used inside `operator+`/`operator-`, and the binary
  operators themselves), and a `mat T × Option MatError` post-state pair
  for the mutating compound operators, so that "the matrix after a failed
  call" is expressible.
* `std::source_location` is a pair of a file name and a line number,
  threaded explicitly.
* the `printable<T>` concept (a compile-time capability) becomes a
  Boolean flag `printableT` passed to `print`, together with a rendering
  function standing for `operator<<`; console output is accumulated in a
  `String`.
* the nested `for` loops of the arithmetic operators and of `print` are
  linearized over the row-major index list `indices n_rows n_cols`,
  which visits exactly the pairs `(i, j)` with `i < n_rows`,
  `j < n_cols` in loop order.
-/

namespace lawcat

/-- The two exception kinds thrown by `mat.cpp`: `dimension_mismatch_error`
(from `check_matrix_dimensions`) and `std::invalid_argument` (from
`mat<T>::set`), each carrying its `what()` message. -/
inductive MatError where
  | dimensionMismatch (message : String)
  | invalidArgument (message : String)
deriving DecidableEq

/-- The `dimension_mismatch_error` constructor: it suffixes the message
with ` at <file>:<line>.` taken from the `std::source_location` default
argument, which is evaluated at the throw site. -/
def dimension_mismatch_error (message : String) (loc_file : String) (loc_line : Nat) : MatError :=
  MatError.dimensionMismatch (message ++ " at " ++ loc_file ++ ":" ++ toString loc_line ++ ".")

/-- File of the single `throw dimension_mismatch_error(msg)` site inside
`check_matrix_dimensions` (where `std::source_location::current()` of the
default argument is evaluated). -/
def check_throw_file : String := "mat.cpp"

/-- Line of that throw site in `src/mat.cpp`. -/
def check_throw_line : Nat := 23

/-- `check_matrix_dimensions` from `mat.cpp`: throws a
`dimension_mismatch_error` whose message always says "addition", whenever
the two shapes differ. -/
def check_matrix_dimensions (n_rows_a n_cols_a n_rows_b n_cols_b : Nat) : Except MatError Unit :=
  if n_rows_a ≠ n_rows_b ∨ n_cols_a ≠ n_cols_b then
    Except.error (dimension_mismatch_error
      ("Cannot perform addition between a " ++ toString n_rows_a ++ "x" ++ toString n_cols_a ++
        " matrix and a " ++ toString n_rows_b ++ "x" ++ toString n_cols_b ++ " matrix.")
      check_throw_file check_throw_line)
  else
    Except.ok ()

/-- The `mat<T>` container: row count, column count, and the cell
contents. Cells outside `i < n_rows`, `j < n_cols` do not exist in the
C++ object; the function is total only for convenience and no operation
or theorem depends on out-of-range values beyond carrying them along. -/
structure mat (T : Type) where
  n_rows : Nat
  n_cols : Nat
  data : Nat → Nat → T

/-- A single in-place cell write `data[row][col] = value`. -/
def mat.updateCell {T : Type} (m : mat T) (row col : Nat) (value : T) : mat T :=
  { m with data := fun i j => if i = row ∧ j = col then value else m.data i j }

/-- `mat<T>::set`: bounds-checked single-cell write. The `row < 0` and
`col < 0` disjuncts are kept from the source even though they are dead
code on the unsigned (here `Nat`) index type. -/
def mat.set {T : Type} (m : mat T) (row col : Nat) (value : T) : Except MatError (mat T) :=
  if m.n_rows ≤ row ∨ row < 0 then
    Except.error (MatError.invalidArgument "ERROR: Row lies outside the bounds of the matrix.")
  else if m.n_cols ≤ col ∨ col < 0 then
    Except.error (MatError.invalidArgument "ERROR: Column lies outside the bounds of the matrix.")
  else
    Except.ok (m.updateCell row col value)

/-- The caller's view of an in-place `m.set(row, col, value)` call: the
post-state of the object paired with the exception, if one was thrown.
Both throws in the source occur before the single write
`data[row][col] = value`, so on failure the post-state is the untouched
pre-state. -/
def mat.setPost {T : Type} (m : mat T) (row col : Nat) (value : T) : mat T × Option MatError :=
  match m.set row col value with
  | Except.ok m' => (m', none)
  | Except.error e => (m, some e)

/-- Row-major linearization of the nested loops
`for i in [0, n_rows) for j in [0, n_cols)` used by `fill`, `print` and
the four arithmetic operators. -/
def indices (n_rows n_cols : Nat) : List (Nat × Nat) :=
  (List.range n_rows).flatMap (fun i => (List.range n_cols).map (fun j => (i, j)))

/-- The loop body sequence of `operator+`/`operator-`: call `out.set i j (v i j)`
for each index pair in order, propagating the first exception. -/
def setCellsM {T : Type} (v : Nat → Nat → T) : List (Nat × Nat) → mat T → Except MatError (mat T)
  | [], out => Except.ok out
  | (i, j) :: rest, out =>
    match out.set i j (v i j) with
    | Except.error e => Except.error e
    | Except.ok out' => setCellsM v rest out'

/-- The loop body sequence of `fill` and the compound operators: a direct
in-place write `data[i][j] = g i j data[i][j]` for each index pair. -/
def updateCells {T : Type} (g : Nat → Nat → T → T) : List (Nat × Nat) → mat T → mat T
  | [], m => m
  | (i, j) :: rest, m => updateCells g rest (m.updateCell i j (g i j (m.data i j)))

/-- `mat<T>::fill`: writes `value` into every cell of the grid. -/
def mat.fill {T : Type} (m : mat T) (value : T) : mat T :=
  updateCells (fun _ _ _ => value) (indices m.n_rows m.n_cols) m

/-- `mat<T>::operator+`: dimension check, then a freshly constructed
`out(n_rows, n_cols)` (cells uninitialized, modeled by `default`) filled
through `out.set i j (a[i][j] + b[i][j])`. -/
def mat.add {T : Type} [Add T] [Inhabited T] (a other : mat T) : Except MatError (mat T) :=
  match check_matrix_dimensions a.n_rows a.n_cols other.n_rows other.n_cols with
  | Except.error e => Except.error e
  | Except.ok _ =>
    setCellsM (fun i j => a.data i j + other.data i j) (indices a.n_rows a.n_cols)
      { n_rows := a.n_rows, n_cols := a.n_cols, data := fun _ _ => default }

/-- `mat<T>::operator+=`: dimension check, then in-place
`data[i][j] += other.data[i][j]`. The result is the post-state of the
left operand together with the exception, if one was thrown (in which
case the post-state is the untouched pre-state, as the check precedes
the loop). -/
def mat.addAssign {T : Type} [Add T] (a other : mat T) : mat T × Option MatError :=
  match check_matrix_dimensions a.n_rows a.n_cols other.n_rows other.n_cols with
  | Except.error e => (a, some e)
  | Except.ok _ =>
    (updateCells (fun i j cur => cur + other.data i j) (indices a.n_rows a.n_cols) a, none)

/-- `mat<T>::operator-`: same shape as `operator+` with `-` in the loop body. -/
def mat.sub {T : Type} [Sub T] [Inhabited T] (a other : mat T) : Except MatError (mat T) :=
  match check_matrix_dimensions a.n_rows a.n_cols other.n_rows other.n_cols with
  | Except.error e => Except.error e
  | Except.ok _ =>
    setCellsM (fun i j => a.data i j - other.data i j) (indices a.n_rows a.n_cols)
      { n_rows := a.n_rows, n_cols := a.n_cols, data := fun _ _ => default }

/-- `mat<T>::operator-=`: same shape as `operator+=` with `-=` in the loop body. -/
def mat.subAssign {T : Type} [Sub T] (a other : mat T) : mat T × Option MatError :=
  match check_matrix_dimensions a.n_rows a.n_cols other.n_rows other.n_cols with
  | Except.error e => (a, some e)
  | Except.ok _ =>
    (updateCells (fun i j cur => cur - other.data i j) (indices a.n_rows a.n_cols) a, none)

/-- The loop of `mat<T>::print`: for each cell in row-major order, if the
element type is printable emit the rendered value, a space, and a newline
after the last column; otherwise emit the diagnostic line and return
`false` immediately (the C++ `return false` fires in the first iteration). -/
def printCells {T : Type} (printableT : Bool) (render : T → String) (diag : String)
    (m : mat T) : List (Nat × Nat) → String → Bool × String
  | [], acc => (true, acc)
  | (i, j) :: rest, acc =>
    if printableT then
      printCells printableT render diag m rest
        ((acc ++ render (m.data i j) ++ " ") ++ (if j = m.n_cols - 1 then "\n" else ""))
    else
      (false, acc ++ diag)

/-- `mat<T>::print`: `printableT` stands for the compile-time
`printable<T>` concept, `render` for `operator<<`, and the returned
`String` is everything written to `std::cout`. `loc_file`/`loc_line` are
the `std::source_location` of the call site. -/
def mat.print {T : Type} (m : mat T) (printableT : Bool) (render : T → String)
    (loc_file : String) (loc_line : Nat) : Bool × String :=
  printCells printableT render
    ("PRINT IGNORED (" ++ loc_file ++ " -> L" ++ toString loc_line ++
      "): Provided template argument does not support the << operator with std::ostream.\n")
    m (indices m.n_rows m.n_cols) ""

/-! ### Basic lemmas about the embedding -/

/-- `updateCell` reads back as a pointwise override. -/
theorem updateCell_data {T : Type} (m : mat T) (row col : Nat) (v : T) (i j : Nat) :
    (m.updateCell row col v).data i j = if i = row ∧ j = col then v else m.data i j := rfl

/-- `set` with in-range indices takes the final branch and writes the cell. -/
theorem set_in_bounds {T : Type} (m : mat T) {row col : Nat} (v : T)
    (hr : row < m.n_rows) (hc : col < m.n_cols) :
    m.set row col v = Except.ok (m.updateCell row col v) := by
  simp [mat.set, Nat.not_le.mpr hr, Nat.not_le.mpr hc]

/-- `set` with an out-of-range row or column throws `std::invalid_argument`. -/
theorem set_out_of_bounds {T : Type} (m : mat T) {row col : Nat} (v : T)
    (h : m.n_rows ≤ row ∨ m.n_cols ≤ col) :
    ∃ msg, m.set row col v = Except.error (MatError.invalidArgument msg) := by
  by_cases h2 : m.n_rows ≤ row
  · exact ⟨"ERROR: Row lies outside the bounds of the matrix.", by simp [mat.set, h2]⟩
  · rcases h with h | h
    · exact absurd h h2
    · exact ⟨"ERROR: Column lies outside the bounds of the matrix.", by simp [mat.set, h2, h]⟩

/-- The row-major index list contains exactly the in-range pairs. -/
theorem mem_indices {R C i j : Nat} : (i, j) ∈ indices R C ↔ i < R ∧ j < C := by
  simp [indices, List.mem_flatMap, List.mem_map, List.mem_range, Prod.ext_iff]

/-- The row-major index list has no duplicates. -/
theorem indices_nodup (R C : Nat) : (indices R C).Nodup := by
  have h : indices R C = (List.range R) ×ˢ (List.range C) := rfl
  rw [h]
  exact List.Nodup.product (List.nodup_range R) (List.nodup_range C)

/-- Running the `set` loop over index pairs that are all in range succeeds
and overrides exactly the visited cells. -/
theorem setCellsM_ok {T : Type} (v : Nat → Nat → T) (ps : List (Nat × Nat)) (out : mat T)
    (h : ∀ p ∈ ps, p.1 < out.n_rows ∧ p.2 < out.n_cols) :
    ∃ res, setCellsM v ps out = Except.ok res ∧
      res.n_rows = out.n_rows ∧ res.n_cols = out.n_cols ∧
      ∀ i j, res.data i j = if (i, j) ∈ ps then v i j else out.data i j := by
  induction ps generalizing out with
  | nil => exact ⟨out, rfl, rfl, rfl, by simp⟩
  | cons p rest ih =>
    obtain ⟨i₀, j₀⟩ := p
    have h₀ := h (i₀, j₀) (List.mem_cons_self _ _)
    have hset := set_in_bounds out (v i₀ j₀) h₀.1 h₀.2
    obtain ⟨res, hres, hr, hc, hd⟩ := ih (out.updateCell i₀ j₀ (v i₀ j₀))
      (fun p hp => h p (List.mem_cons_of_mem _ hp))
    refine ⟨res, ?_, hr, hc, ?_⟩
    · simp [setCellsM, hset, hres]
    · intro i j
      rw [hd i j]
      by_cases hmem : (i, j) ∈ rest
      · simp [hmem, List.mem_cons]
      · by_cases heq : i = i₀ ∧ j = j₀
        · obtain ⟨rfl, rfl⟩ := heq
          simp [hmem, mat.updateCell, List.mem_cons]
        · simp [hmem, mat.updateCell, heq, List.mem_cons, Prod.ext_iff]

/-- Running the in-place update loop over a duplicate-free index list
applies `g` once to every visited cell and leaves the rest alone. -/
theorem updateCells_spec {T : Type} (g : Nat → Nat → T → T) (ps : List (Nat × Nat)) (m : mat T)
    (hnd : ps.Nodup) :
    (updateCells g ps m).n_rows = m.n_rows ∧ (updateCells g ps m).n_cols = m.n_cols ∧
    ∀ i j, (updateCells g ps m).data i j =
      if (i, j) ∈ ps then g i j (m.data i j) else m.data i j := by
  induction ps generalizing m with
  | nil => exact ⟨rfl, rfl, by simp [updateCells]⟩
  | cons p rest ih =>
    obtain ⟨i₀, j₀⟩ := p
    rw [List.nodup_cons] at hnd
    obtain ⟨hnotmem, hrest⟩ := hnd
    obtain ⟨hr, hc, hd⟩ := ih (m.updateCell i₀ j₀ (g i₀ j₀ (m.data i₀ j₀))) hrest
    refine ⟨hr, hc, ?_⟩
    intro i j
    have hstep : (updateCells g ((i₀, j₀) :: rest) m).data i j =
        (updateCells g rest (m.updateCell i₀ j₀ (g i₀ j₀ (m.data i₀ j₀)))).data i j := rfl
    rw [hstep, hd i j]
    by_cases hmem : (i, j) ∈ rest
    · have hne : ¬(i = i₀ ∧ j = j₀) := by
        rintro ⟨rfl, rfl⟩
        exact hnotmem hmem
      simp [hmem, List.mem_cons, mat.updateCell, hne]
    · by_cases heq : i = i₀ ∧ j = j₀
      · obtain ⟨rfl, rfl⟩ := heq
        simp [hmem, mat.updateCell, List.mem_cons]
      · simp [hmem, mat.updateCell, heq, List.mem_cons, Prod.ext_iff]

/-- Matching dimensions pass the check. -/
theorem check_matrix_dimensions_ok {ra ca rb cb : Nat} (hr : ra = rb) (hc : ca = cb) :
    check_matrix_dimensions ra ca rb cb = Except.ok () := by
  simp [check_matrix_dimensions, hr, hc]

/-- The exact message thrown by the check on a mismatch. -/
def mismatch_message (ra ca rb cb : Nat) : String :=
  ("Cannot perform addition between a " ++ toString ra ++ "x" ++ toString ca ++
    " matrix and a " ++ toString rb ++ "x" ++ toString cb ++ " matrix.") ++
  " at " ++ check_throw_file ++ ":" ++ toString check_throw_line ++ "."

/-- Mismatched dimensions throw a `dimension_mismatch_error` with the
"addition" message. -/
theorem check_matrix_dimensions_mismatch {ra ca rb cb : Nat} (h : ra ≠ rb ∨ ca ≠ cb) :
    check_matrix_dimensions ra ca rb cb =
      Except.error (MatError.dimensionMismatch (mismatch_message ra ca rb cb)) := by
  unfold check_matrix_dimensions
  rw [if_pos h]
  rfl

/-! ### Behaviour of the four arithmetic operators and `fill` -/

/-- `operator+` on equal shapes: succeeds and is elementwise addition. -/
theorem add_ok {T : Type} [Add T] [Inhabited T] (a b : mat T)
    (hr : a.n_rows = b.n_rows) (hc : a.n_cols = b.n_cols) :
    ∃ c, mat.add a b = Except.ok c ∧ c.n_rows = a.n_rows ∧ c.n_cols = a.n_cols ∧
      ∀ i j, i < a.n_rows → j < a.n_cols → c.data i j = a.data i j + b.data i j := by
  have hcheck := check_matrix_dimensions_ok hr hc
  obtain ⟨c, hrun, h1, h2, h3⟩ := setCellsM_ok (fun i j => a.data i j + b.data i j)
    (indices a.n_rows a.n_cols)
    { n_rows := a.n_rows, n_cols := a.n_cols, data := fun _ _ => default }
    (fun p hp => by
      obtain ⟨i, j⟩ := p
      exact mem_indices.mp hp)
  refine ⟨c, ?_, h1, h2, ?_⟩
  · simp [mat.add, hcheck, hrun]
  · intro i j hi hj
    have hmem := h3 i j
    rwa [if_pos (mem_indices.mpr ⟨hi, hj⟩)] at hmem

/-- `operator-` on equal shapes: succeeds and is elementwise subtraction. -/
theorem sub_ok {T : Type} [Sub T] [Inhabited T] (a b : mat T)
    (hr : a.n_rows = b.n_rows) (hc : a.n_cols = b.n_cols) :
    ∃ c, mat.sub a b = Except.ok c ∧ c.n_rows = a.n_rows ∧ c.n_cols = a.n_cols ∧
      ∀ i j, i < a.n_rows → j < a.n_cols → c.data i j = a.data i j - b.data i j := by
  have hcheck := check_matrix_dimensions_ok hr hc
  obtain ⟨c, hrun, h1, h2, h3⟩ := setCellsM_ok (fun i j => a.data i j - b.data i j)
    (indices a.n_rows a.n_cols)
    { n_rows := a.n_rows, n_cols := a.n_cols, data := fun _ _ => default }
    (fun p hp => by
      obtain ⟨i, j⟩ := p
      exact mem_indices.mp hp)
  refine ⟨c, ?_, h1, h2, ?_⟩
  · simp [mat.sub, hcheck, hrun]
  · intro i j hi hj
    have hmem := h3 i j
    rwa [if_pos (mem_indices.mpr ⟨hi, hj⟩)] at hmem

/-- `operator+=` on equal shapes: no exception, left operand holds the
elementwise sums in range and its other cells are untouched. -/
theorem addAssign_ok {T : Type} [Add T] (a b : mat T)
    (hr : a.n_rows = b.n_rows) (hc : a.n_cols = b.n_cols) :
    ∃ a', mat.addAssign a b = (a', none) ∧ a'.n_rows = a.n_rows ∧ a'.n_cols = a.n_cols ∧
      (∀ i j, i < a.n_rows → j < a.n_cols → a'.data i j = a.data i j + b.data i j) ∧
      ∀ i j, ¬(i < a.n_rows ∧ j < a.n_cols) → a'.data i j = a.data i j := by
  have hcheck := check_matrix_dimensions_ok hr hc
  obtain ⟨h1, h2, h3⟩ := updateCells_spec (fun i j cur => cur + b.data i j)
    (indices a.n_rows a.n_cols) a (indices_nodup _ _)
  refine ⟨_, ?_, h1, h2, ?_, ?_⟩
  · simp [mat.addAssign, hcheck]
  · intro i j hi hj
    rw [h3 i j, if_pos (mem_indices.mpr ⟨hi, hj⟩)]
  · intro i j hij
    rw [h3 i j, if_neg (fun hmem => hij (mem_indices.mp hmem))]

/-- `operator-=` on equal shapes: no exception, left operand holds the
elementwise differences in range and its other cells are untouched. -/
theorem subAssign_ok {T : Type} [Sub T] (a b : mat T)
    (hr : a.n_rows = b.n_rows) (hc : a.n_cols = b.n_cols) :
    ∃ a', mat.subAssign a b = (a', none) ∧ a'.n_rows = a.n_rows ∧ a'.n_cols = a.n_cols ∧
      (∀ i j, i < a.n_rows → j < a.n_cols → a'.data i j = a.data i j - b.data i j) ∧
      ∀ i j, ¬(i < a.n_rows ∧ j < a.n_cols) → a'.data i j = a.data i j := by
  have hcheck := check_matrix_dimensions_ok hr hc
  obtain ⟨h1, h2, h3⟩ := updateCells_spec (fun i j cur => cur - b.data i j)
    (indices a.n_rows a.n_cols) a (indices_nodup _ _)
  refine ⟨_, ?_, h1, h2, ?_, ?_⟩
  · simp [mat.subAssign, hcheck]
  · intro i j hi hj
    rw [h3 i j, if_pos (mem_indices.mpr ⟨hi, hj⟩)]
  · intro i j hij
    rw [h3 i j, if_neg (fun hmem => hij (mem_indices.mp hmem))]

/-- On a shape mismatch all four operators fail with the same
`dimension_mismatch_error`, and the compound ones return the left operand
untouched. -/
theorem arith_mismatch {T : Type} [Add T] [Sub T] [Inhabited T] (a b : mat T)
    (h : a.n_rows ≠ b.n_rows ∨ a.n_cols ≠ b.n_cols) :
    mat.add a b = Except.error (MatError.dimensionMismatch
        (mismatch_message a.n_rows a.n_cols b.n_rows b.n_cols)) ∧
    mat.addAssign a b = (a, some (MatError.dimensionMismatch
        (mismatch_message a.n_rows a.n_cols b.n_rows b.n_cols))) ∧
    mat.sub a b = Except.error (MatError.dimensionMismatch
        (mismatch_message a.n_rows a.n_cols b.n_rows b.n_cols)) ∧
    mat.subAssign a b = (a, some (MatError.dimensionMismatch
        (mismatch_message a.n_rows a.n_cols b.n_rows b.n_cols))) := by
  have hcheck := check_matrix_dimensions_mismatch h
  exact ⟨by simp [mat.add, hcheck], by simp [mat.addAssign, hcheck],
    by simp [mat.sub, hcheck], by simp [mat.subAssign, hcheck]⟩

/-- `fill` writes the value into every in-range cell and touches nothing else. -/
theorem fill_data {T : Type} (m : mat T) (v : T) (i j : Nat) :
    (m.fill v).data i j = if i < m.n_rows ∧ j < m.n_cols then v else m.data i j := by
  obtain ⟨h1, h2, h3⟩ := updateCells_spec (fun _ _ _ => v)
    (indices m.n_rows m.n_cols) m (indices_nodup _ _)
  rw [mat.fill, h3 i j]
  by_cases hij : i < m.n_rows ∧ j < m.n_cols
  · rw [if_pos (mem_indices.mpr hij), if_pos hij]
  · rw [if_neg (fun hmem => hij (mem_indices.mp hmem)), if_neg hij]

/-! ### Behaviour of `print` -/

/-- With an unprintable element type, the first loop iteration emits the
diagnostic and returns `false`. -/
theorem printCells_unprintable {T : Type} (render : T → String) (diag : String) (m : mat T)
    (p : Nat × Nat) (ps : List (Nat × Nat)) (acc : String) :
    printCells false render diag m (p :: ps) acc = (false, acc ++ diag) := by
  obtain ⟨i, j⟩ := p
  rfl

/-- The in-range shape of the index list forces it to be nonempty. -/
theorem indices_ne_nil {R C : Nat} (hR : 0 < R) (hC : 0 < C) : indices R C ≠ [] :=
  List.ne_nil_of_mem (mem_indices.mpr ⟨hR, hC⟩)

/-- `print` on a nonempty matrix of an unprintable type: returns `false`
and the output is exactly the one diagnostic line. -/
theorem print_unprintable {T : Type} (m : mat T) (render : T → String)
    (loc_file : String) (loc_line : Nat) (hR : 0 < m.n_rows) (hC : 0 < m.n_cols) :
    m.print false render loc_file loc_line =
      (false, "PRINT IGNORED (" ++ loc_file ++ " -> L" ++ toString loc_line ++
        "): Provided template argument does not support the << operator with std::ostream.\n") := by
  obtain ⟨p, ps, hcons⟩ := List.exists_cons_of_ne_nil (indices_ne_nil hR hC)
  rw [mat.print, hcons, printCells_unprintable]
  rfl

/-! ### Shape substrings of the mismatch message -/

/-- A shape rendered the way the error message renders it: `RxC`. -/
def shape_string (r c : Nat) : String := toString r ++ "x" ++ toString c

/-- The left operand's shape occurs verbatim in the mismatch message. -/
theorem shape_infix_left (ra ca rb cb : Nat) :
    (shape_string ra ca).data <:+: (mismatch_message ra ca rb cb).data := by
  refine ⟨"Cannot perform addition between a ".data,
    (" matrix and a " ++ toString rb ++ "x" ++ toString cb ++ " matrix." ++ " at " ++
      check_throw_file ++ ":" ++ toString check_throw_line ++ ".").data, ?_⟩
  simp [mismatch_message, shape_string, String.data_append, List.append_assoc]

/-- The right operand's shape occurs verbatim in the mismatch message. -/
theorem shape_infix_right (ra ca rb cb : Nat) :
    (shape_string rb cb).data <:+: (mismatch_message ra ca rb cb).data := by
  refine ⟨("Cannot perform addition between a " ++ toString ra ++ "x" ++ toString ca ++
      " matrix and a ").data,
    (" matrix." ++ " at " ++ check_throw_file ++ ":" ++ toString check_throw_line ++ ".").data, ?_⟩
  simp [mismatch_message, shape_string, String.data_append, List.append_assoc]

/-! ### The claims -/

/-- Claim C1: for every pair of matrices of equal row and column counts,
over an element type with addition, the binary `operator+` returns a new
matrix of the same dimensions whose cell `(i, j)` is
`A(i,j) + B(i,j)` for every in-range `i`, `j`. -/
theorem binary_add_elementwise {T : Type} [Add T] [Inhabited T] (A B : mat T)
    (hr : A.n_rows = B.n_rows) (hc : A.n_cols = B.n_cols) :
    ∃ C, mat.add A B = Except.ok C ∧ C.n_rows = A.n_rows ∧ C.n_cols = A.n_cols ∧
      ∀ i j, i < A.n_rows → j < A.n_cols → C.data i j = A.data i j + B.data i j :=
  add_ok A B hr hc

/-- Witness for C1: two concrete `2×2` integer matrices. -/
theorem binary_add_elementwise_witness :
    (mat.mk 2 2 (fun _ _ => (1 : Int))).n_rows = (mat.mk 2 2 (fun _ _ => (5 : Int))).n_rows ∧
    (mat.mk 2 2 (fun _ _ => (1 : Int))).n_cols = (mat.mk 2 2 (fun _ _ => (5 : Int))).n_cols ∧
    ∃ C, mat.add (mat.mk 2 2 (fun _ _ => (1 : Int))) (mat.mk 2 2 (fun _ _ => (5 : Int))) =
        Except.ok C ∧
      C.n_rows = (mat.mk 2 2 (fun _ _ => (1 : Int))).n_rows ∧
      C.n_cols = (mat.mk 2 2 (fun _ _ => (1 : Int))).n_cols ∧
      ∀ i j, i < (mat.mk 2 2 (fun _ _ => (1 : Int))).n_rows →
        j < (mat.mk 2 2 (fun _ _ => (1 : Int))).n_cols →
        C.data i j = (mat.mk 2 2 (fun _ _ => (1 : Int))).data i j +
          (mat.mk 2 2 (fun _ _ => (5 : Int))).data i j :=
  ⟨rfl, rfl, binary_add_elementwise (mat.mk 2 2 (fun _ _ => (1 : Int)))
    (mat.mk 2 2 (fun _ _ => (5 : Int))) rfl rfl⟩

/-- Claim C2: on unequal dimensions all four of `+`, `+=`, `-`, `-=` fail
with a `dimension_mismatch_error` whose message contains both operand
shapes rendered as `R1xC1` and `R2xC2`. -/
theorem mismatch_all_four_ops {T : Type} [Add T] [Sub T] [Inhabited T] (A B : mat T)
    (h : A.n_rows ≠ B.n_rows ∨ A.n_cols ≠ B.n_cols) :
    ∃ msg, mat.add A B = Except.error (MatError.dimensionMismatch msg) ∧
      mat.addAssign A B = (A, some (MatError.dimensionMismatch msg)) ∧
      mat.sub A B = Except.error (MatError.dimensionMismatch msg) ∧
      mat.subAssign A B = (A, some (MatError.dimensionMismatch msg)) ∧
      (shape_string A.n_rows A.n_cols).data <:+: msg.data ∧
      (shape_string B.n_rows B.n_cols).data <:+: msg.data := by
  obtain ⟨h1, h2, h3, h4⟩ := arith_mismatch A B h
  exact ⟨_, h1, h2, h3, h4, shape_infix_left _ _ _ _, shape_infix_right _ _ _ _⟩

/-- Witness for C2: a `2×3` against a `3×2` integer matrix. -/
theorem mismatch_all_four_ops_witness :
    ((mat.mk 2 3 (fun _ _ => (0 : Int))).n_rows ≠ (mat.mk 3 2 (fun _ _ => (0 : Int))).n_rows ∨
      (mat.mk 2 3 (fun _ _ => (0 : Int))).n_cols ≠ (mat.mk 3 2 (fun _ _ => (0 : Int))).n_cols) ∧
    ∃ msg, mat.add (mat.mk 2 3 (fun _ _ => (0 : Int))) (mat.mk 3 2 (fun _ _ => (0 : Int))) =
        Except.error (MatError.dimensionMismatch msg) ∧
      mat.addAssign (mat.mk 2 3 (fun _ _ => (0 : Int))) (mat.mk 3 2 (fun _ _ => (0 : Int))) =
        (mat.mk 2 3 (fun _ _ => (0 : Int)), some (MatError.dimensionMismatch msg)) ∧
      mat.sub (mat.mk 2 3 (fun _ _ => (0 : Int))) (mat.mk 3 2 (fun _ _ => (0 : Int))) =
        Except.error (MatError.dimensionMismatch msg) ∧
      mat.subAssign (mat.mk 2 3 (fun _ _ => (0 : Int))) (mat.mk 3 2 (fun _ _ => (0 : Int))) =
        (mat.mk 2 3 (fun _ _ => (0 : Int)), some (MatError.dimensionMismatch msg)) ∧
      (shape_string (mat.mk 2 3 (fun _ _ => (0 : Int))).n_rows
        (mat.mk 2 3 (fun _ _ => (0 : Int))).n_cols).data <:+: msg.data ∧
      (shape_string (mat.mk 3 2 (fun _ _ => (0 : Int))).n_rows
        (mat.mk 3 2 (fun _ _ => (0 : Int))).n_cols).data <:+: msg.data :=
  ⟨Or.inl (by decide),
    mismatch_all_four_ops (mat.mk 2 3 (fun _ _ => (0 : Int)))
      (mat.mk 3 2 (fun _ _ => (0 : Int))) (Or.inl (by decide))⟩

set_option maxRecDepth 8192 in
/-- Claim C3 (code bug): the message produced by the subtraction
operators on a dimension mismatch still names addition, because
`check_matrix_dimensions` hard-codes the "Cannot perform addition"
text; it never mentions subtraction. Shown on a concrete `2×3` minus
`3×2`. -/
theorem sub_mismatch_message_says_addition :
    ∃ msg, mat.sub (mat.mk 2 3 (fun _ _ => (0 : Int))) (mat.mk 3 2 (fun _ _ => (0 : Int))) =
        Except.error (MatError.dimensionMismatch msg) ∧
      "addition".data <:+: msg.data ∧ ¬ ("subtraction".data <:+: msg.data) := by
  refine ⟨mismatch_message 2 3 3 2, ?_, by decide, by decide⟩
  exact (arith_mismatch (mat.mk 2 3 (fun _ _ => (0 : Int)))
    (mat.mk 3 2 (fun _ _ => (0 : Int))) (Or.inl (by decide))).2.2.1

/-- Claim C4: on equal shapes, `A += B` leaves the left operand equal,
cell for cell and in dimensions, to the matrix the binary `A + B`
returns. -/
theorem compound_add_matches_binary {T : Type} [Add T] [Inhabited T] (A B : mat T)
    (hr : A.n_rows = B.n_rows) (hc : A.n_cols = B.n_cols) :
    ∃ C A', mat.add A B = Except.ok C ∧ mat.addAssign A B = (A', none) ∧
      A'.n_rows = C.n_rows ∧ A'.n_cols = C.n_cols ∧
      ∀ i j, i < A.n_rows → j < A.n_cols → A'.data i j = C.data i j := by
  obtain ⟨C, hC, hCr, hCc, hCd⟩ := add_ok A B hr hc
  obtain ⟨A', hA', hAr, hAc, hAd, -⟩ := addAssign_ok A B hr hc
  exact ⟨C, A', hC, hA', by rw [hAr, hCr], by rw [hAc, hCc],
    fun i j hi hj => by rw [hAd i j hi hj, hCd i j hi hj]⟩

/-- Witness for C4: two concrete `2×2` integer matrices. -/
theorem compound_add_matches_binary_witness :
    (mat.mk 2 2 (fun _ _ => (3 : Int))).n_rows = (mat.mk 2 2 (fun _ _ => (4 : Int))).n_rows ∧
    (mat.mk 2 2 (fun _ _ => (3 : Int))).n_cols = (mat.mk 2 2 (fun _ _ => (4 : Int))).n_cols ∧
    ∃ C A', mat.add (mat.mk 2 2 (fun _ _ => (3 : Int))) (mat.mk 2 2 (fun _ _ => (4 : Int))) =
        Except.ok C ∧
      mat.addAssign (mat.mk 2 2 (fun _ _ => (3 : Int))) (mat.mk 2 2 (fun _ _ => (4 : Int))) =
        (A', none) ∧
      A'.n_rows = C.n_rows ∧ A'.n_cols = C.n_cols ∧
      ∀ i j, i < (mat.mk 2 2 (fun _ _ => (3 : Int))).n_rows →
        j < (mat.mk 2 2 (fun _ _ => (3 : Int))).n_cols → A'.data i j = C.data i j :=
  ⟨rfl, rfl, compound_add_matches_binary (mat.mk 2 2 (fun _ _ => (3 : Int)))
    (mat.mk 2 2 (fun _ _ => (4 : Int))) rfl rfl⟩

/-- Claim C5: over an element type where subtraction inverts addition,
`(A + B) - B` equals `A` cell for cell on equal shapes. -/
theorem sub_inverts_add {T : Type} [Add T] [Sub T] [Inhabited T] (A B : mat T)
    (hinv : ∀ x y : T, x + y - y = x)
    (hr : A.n_rows = B.n_rows) (hc : A.n_cols = B.n_cols) :
    ∃ S D, mat.add A B = Except.ok S ∧ mat.sub S B = Except.ok D ∧
      D.n_rows = A.n_rows ∧ D.n_cols = A.n_cols ∧
      ∀ i j, i < A.n_rows → j < A.n_cols → D.data i j = A.data i j := by
  obtain ⟨S, hS, hSr, hSc, hSd⟩ := add_ok A B hr hc
  obtain ⟨D, hD, hDr, hDc, hDd⟩ := sub_ok S B (hSr.trans hr) (hSc.trans hc)
  refine ⟨S, D, hS, hD, hDr.trans hSr, hDc.trans hSc, ?_⟩
  intro i j hi hj
  have hi' : i < S.n_rows := hSr ▸ hi
  have hj' : j < S.n_cols := hSc ▸ hj
  rw [hDd i j hi' hj', hSd i j hi hj, hinv]

/-- Witness for C5: concrete `2×2` integer matrices, where subtraction
does invert addition. -/
theorem sub_inverts_add_witness :
    (∀ x y : Int, x + y - y = x) ∧
    (mat.mk 2 2 (fun _ _ => (9 : Int))).n_rows = (mat.mk 2 2 (fun _ _ => (4 : Int))).n_rows ∧
    (mat.mk 2 2 (fun _ _ => (9 : Int))).n_cols = (mat.mk 2 2 (fun _ _ => (4 : Int))).n_cols ∧
    ∃ S D, mat.add (mat.mk 2 2 (fun _ _ => (9 : Int))) (mat.mk 2 2 (fun _ _ => (4 : Int))) =
        Except.ok S ∧
      mat.sub S (mat.mk 2 2 (fun _ _ => (4 : Int))) = Except.ok D ∧
      D.n_rows = (mat.mk 2 2 (fun _ _ => (9 : Int))).n_rows ∧
      D.n_cols = (mat.mk 2 2 (fun _ _ => (9 : Int))).n_cols ∧
      ∀ i j, i < (mat.mk 2 2 (fun _ _ => (9 : Int))).n_rows →
        j < (mat.mk 2 2 (fun _ _ => (9 : Int))).n_cols →
        D.data i j = (mat.mk 2 2 (fun _ _ => (9 : Int))).data i j :=
  ⟨fun x y => add_sub_cancel_right x y,
    rfl, rfl, sub_inverts_add (mat.mk 2 2 (fun _ _ => (9 : Int)))
      (mat.mk 2 2 (fun _ _ => (4 : Int))) (fun x y => add_sub_cancel_right x y) rfl rfl⟩

/-- Claim C6: `set(r, c, v)` with in-range indices succeeds and the cell
then reads `v`; with an out-of-range row or column it throws
`std::invalid_argument` and the post-state is the untouched pre-state,
every cell unchanged. -/
theorem set_bounds_contract {T : Type} (m : mat T) (r c : Nat) (v : T) :
    (r < m.n_rows ∧ c < m.n_cols →
      ∃ m', m.setPost r c v = (m', none) ∧ m'.n_rows = m.n_rows ∧ m'.n_cols = m.n_cols ∧
        m'.data r c = v) ∧
    (m.n_rows ≤ r ∨ m.n_cols ≤ c →
      ∃ msg, m.setPost r c v = (m, some (MatError.invalidArgument msg)) ∧
        ∀ i j, (m.setPost r c v).1.data i j = m.data i j) := by
  constructor
  · rintro ⟨hr, hc⟩
    refine ⟨m.updateCell r c v, ?_, rfl, rfl, by simp [mat.updateCell]⟩
    simp [mat.setPost, set_in_bounds m v hr hc]
  · intro h
    obtain ⟨msg, hmsg⟩ := set_out_of_bounds m v h
    refine ⟨msg, ?_, ?_⟩
    · simp [mat.setPost, hmsg]
    · intro i j
      simp [mat.setPost, hmsg]

/-- Witness for C6: one in-range write and one out-of-range write on a
concrete `2×2` integer matrix. -/
theorem set_bounds_contract_witness :
    (∃ m', (mat.mk 2 2 (fun _ _ => (0 : Int))).setPost 1 1 7 = (m', none) ∧
      m'.n_rows = (mat.mk 2 2 (fun _ _ => (0 : Int))).n_rows ∧
      m'.n_cols = (mat.mk 2 2 (fun _ _ => (0 : Int))).n_cols ∧
      m'.data 1 1 = 7) ∧
    ∃ msg, (mat.mk 2 2 (fun _ _ => (0 : Int))).setPost 5 1 7 =
        (mat.mk 2 2 (fun _ _ => (0 : Int)), some (MatError.invalidArgument msg)) ∧
      ∀ i j, ((mat.mk 2 2 (fun _ _ => (0 : Int))).setPost 5 1 7).1.data i j =
        (mat.mk 2 2 (fun _ _ => (0 : Int))).data i j :=
  ⟨(set_bounds_contract (mat.mk 2 2 (fun _ _ => (0 : Int))) 1 1 7).1 ⟨by decide, by decide⟩,
    (set_bounds_contract (mat.mk 2 2 (fun _ _ => (0 : Int))) 5 1 7).2 (Or.inl (by decide))⟩

/-- Claim C7: constructing a matrix with any dimensions (zero included)
and any uninitialized contents, then calling `fill v`, makes every
in-range cell read `v`; `fill` is total. -/
theorem construct_fill_reads_value {T : Type} (rows cols : Nat) (uninit : Nat → Nat → T)
    (v : T) (i j : Nat) (hi : i < rows) (hj : j < cols) :
    ((mat.mk rows cols uninit).fill v).data i j = v := by
  have h := fill_data (mat.mk rows cols uninit) v i j
  rw [h]
  exact if_pos ⟨hi, hj⟩

/-- Witness for C7: a `2×3` integer matrix with junk contents, filled
with `7`, read at cell `(1, 2)`. -/
theorem construct_fill_reads_value_witness :
    1 < 2 ∧ 2 < 3 ∧ ((mat.mk 2 3 (fun _ _ => (99 : Int))).fill 7).data 1 2 = 7 :=
  ⟨by decide, by decide,
    construct_fill_reads_value 2 3 (fun _ _ => (99 : Int)) 7 1 2 (by decide) (by decide)⟩

/-- Claim C8: a compound `+=` or `-=` on mismatched shapes fails with the
dimension-mismatch exception and leaves the left operand untouched, every
cell unchanged (the check runs before any mutation). -/
theorem compound_mismatch_atomic {T : Type} [Add T] [Sub T] [Inhabited T] (A B : mat T)
    (h : A.n_rows ≠ B.n_rows ∨ A.n_cols ≠ B.n_cols) :
    (∃ msg, mat.addAssign A B = (A, some (MatError.dimensionMismatch msg))) ∧
    (∃ msg, mat.subAssign A B = (A, some (MatError.dimensionMismatch msg))) ∧
    (∀ i j, (mat.addAssign A B).1.data i j = A.data i j) ∧
    ∀ i j, (mat.subAssign A B).1.data i j = A.data i j := by
  obtain ⟨-, h2, -, h4⟩ := arith_mismatch A B h
  exact ⟨⟨_, h2⟩, ⟨_, h4⟩, fun i j => by simp [h2], fun i j => by simp [h4]⟩

/-- Witness for C8: a `2×3` against a `3×2` integer matrix. -/
theorem compound_mismatch_atomic_witness :
    ((mat.mk 2 3 (fun _ _ => (1 : Int))).n_rows ≠ (mat.mk 3 2 (fun _ _ => (1 : Int))).n_rows ∨
      (mat.mk 2 3 (fun _ _ => (1 : Int))).n_cols ≠ (mat.mk 3 2 (fun _ _ => (1 : Int))).n_cols) ∧
    (∃ msg, mat.addAssign (mat.mk 2 3 (fun _ _ => (1 : Int))) (mat.mk 3 2 (fun _ _ => (1 : Int))) =
      (mat.mk 2 3 (fun _ _ => (1 : Int)), some (MatError.dimensionMismatch msg))) ∧
    (∃ msg, mat.subAssign (mat.mk 2 3 (fun _ _ => (1 : Int))) (mat.mk 3 2 (fun _ _ => (1 : Int))) =
      (mat.mk 2 3 (fun _ _ => (1 : Int)), some (MatError.dimensionMismatch msg))) ∧
    (∀ i j, (mat.addAssign (mat.mk 2 3 (fun _ _ => (1 : Int)))
        (mat.mk 3 2 (fun _ _ => (1 : Int)))).1.data i j =
      (mat.mk 2 3 (fun _ _ => (1 : Int))).data i j) ∧
    ∀ i j, (mat.subAssign (mat.mk 2 3 (fun _ _ => (1 : Int)))
        (mat.mk 3 2 (fun _ _ => (1 : Int)))).1.data i j =
      (mat.mk 2 3 (fun _ _ => (1 : Int))).data i j :=
  ⟨Or.inl (by decide),
    (compound_mismatch_atomic (mat.mk 2 3 (fun _ _ => (1 : Int)))
      (mat.mk 3 2 (fun _ _ => (1 : Int))) (Or.inl (by decide))).1,
    (compound_mismatch_atomic (mat.mk 2 3 (fun _ _ => (1 : Int)))
      (mat.mk 3 2 (fun _ _ => (1 : Int))) (Or.inl (by decide))).2.1,
    (compound_mismatch_atomic (mat.mk 2 3 (fun _ _ => (1 : Int)))
      (mat.mk 3 2 (fun _ _ => (1 : Int))) (Or.inl (by decide))).2.2.1,
    (compound_mismatch_atomic (mat.mk 2 3 (fun _ _ => (1 : Int)))
      (mat.mk 3 2 (fun _ _ => (1 : Int))) (Or.inl (by decide))).2.2.2⟩

/-- Claim C9 as stated is false: on a `0×0` matrix of an unprintable
type `print` returns `true` (the loops never run, so the diagnostic
branch is unreachable), and on a nonempty matrix the diagnostic
separates file and line with ` -> L`, not `:L` as the claimed format
has it. -/
theorem print_unprintable_claim_counterexample :
    ((mat.mk 0 0 (fun _ _ => ())).print false (fun _ => "") "mat_test.cpp" 3).1 = true ∧
    ((mat.mk 1 1 (fun _ _ => ())).print false (fun _ => "") "mat_test.cpp" 3).2 ≠
      "PRINT IGNORED (mat_test.cpp:L3): Provided template argument does not support the << operator with std::ostream.\n" :=
  ⟨rfl, by decide⟩

/-- Claim C9 (amended): for every matrix with at least one row and one
column whose element type is unprintable, `print` returns `false`, emits
no cell values, and emits exactly the one diagnostic line
`PRINT IGNORED (<file> -> L<line>): Provided template argument does not
support the << operator with std::ostream.`. -/
theorem print_unprintable_amended {T : Type} (m : mat T) (render : T → String)
    (loc_file : String) (loc_line : Nat) (hR : 0 < m.n_rows) (hC : 0 < m.n_cols) :
    m.print false render loc_file loc_line =
      (false, "PRINT IGNORED (" ++ loc_file ++ " -> L" ++ toString loc_line ++
        "): Provided template argument does not support the << operator with std::ostream.\n") :=
  print_unprintable m render loc_file loc_line hR hC

/-- Witness for the amended C9: a `1×2` matrix over `Unit`. -/
theorem print_unprintable_amended_witness :
    0 < (mat.mk 1 2 (fun _ _ => ())).n_rows ∧ 0 < (mat.mk 1 2 (fun _ _ => ())).n_cols ∧
    (mat.mk 1 2 (fun _ _ => ())).print false (fun _ => "") "demo.cpp" 42 =
      (false, "PRINT IGNORED (" ++ "demo.cpp" ++ " -> L" ++ toString 42 ++
        "): Provided template argument does not support the << operator with std::ostream.\n") :=
  ⟨by decide, by decide,
    print_unprintable_amended (mat.mk 1 2 (fun _ _ => ())) (fun _ => "") "demo.cpp" 42
      (by decide) (by decide)⟩

/-- Claim C10: the binary operators only ever return a result matrix or
the dimension-mismatch exception; the out-of-bounds branches of the
internal `set` calls are unreachable, so no `std::invalid_argument`
escapes `operator+` or `operator-`. -/
theorem binary_ops_never_out_of_bounds {T : Type} [Add T] [Sub T] [Inhabited T] (A B : mat T) :
    ((∃ C, mat.add A B = Except.ok C) ∨
      (∃ msg, mat.add A B = Except.error (MatError.dimensionMismatch msg))) ∧
    ((∃ C, mat.sub A B = Except.ok C) ∨
      (∃ msg, mat.sub A B = Except.error (MatError.dimensionMismatch msg))) := by
  by_cases hr : A.n_rows = B.n_rows
  · by_cases hc : A.n_cols = B.n_cols
    · obtain ⟨C, hC, -, -, -⟩ := add_ok A B hr hc
      obtain ⟨D, hD, -, -, -⟩ := sub_ok A B hr hc
      exact ⟨Or.inl ⟨C, hC⟩, Or.inl ⟨D, hD⟩⟩
    · obtain ⟨h1, -, h3, -⟩ := arith_mismatch A B (Or.inr hc)
      exact ⟨Or.inr ⟨_, h1⟩, Or.inr ⟨_, h3⟩⟩
  · obtain ⟨h1, -, h3, -⟩ := arith_mismatch A B (Or.inl hr)
    exact ⟨Or.inr ⟨_, h1⟩, Or.inr ⟨_, h3⟩⟩

end lawcat
